import Mathlib

/-!
Verification of the `demographic` repository: a BLS API client
(`src/helpers/bls.py`) over an HTTP session factory (`src/helpers/web.py`).

The embedding models the Python source shallowly:
- JSON values as an inductive `Json`;
- Python dictionary / iteration / truthiness semantics as `Except`-valued
  primitives (an `AttributeError`, `KeyError` or `TypeError` is `.error ()`);
- the `requests` session created by `SessionManager.create_session`,
  including the fact that line 75 of `web.py` replaces `session.request`
  with a lambda delegating to the module-level `requests.request`, which
  builds a fresh default session (no mounted retry adapter, no response
  hook);
- `BLS.get_series` including its blanket `try/except` that falls back to
  returning the raw response object.
-/

-- # JSON values

inductive Json where
  | null
  | bool (b : Bool)
  | num (n : Int)
  | str (s : String)
  | arr (xs : List Json)
  | obj (kvs : List (String × Json))

-- # Python dictionary and iteration semantics

/-- Lookup of a key in an insertion-ordered association list (Python dict). -/
def lookupKey (k : String) : List (String × Json) → Option Json
  | [] => none
  | (k', v) :: rest => if k' = k then some v else lookupKey k rest

/-- Python `d[k] = v` on an insertion-ordered dict: update in place if the
key exists, otherwise append. Used for dict literals with duplicate keys
and for `**` spreads. -/
def dictInsert (d : List (String × Json)) (k : String) (v : Json) : List (String × Json) :=
  match d with
  | [] => [(k, v)]
  | (k', v') :: rest => if k' = k then (k', v) :: rest else (k', v') :: dictInsert rest k v

/-- Python `j.get(k, dflt)`: returns the default when the key is absent,
raises `AttributeError` when `j` is not a dict. -/
def pyDictGet (j : Json) (k : String) (dflt : Json) : Except Unit Json :=
  match j with
  | .obj kvs => .ok ((lookupKey k kvs).getD dflt)
  | _ => .error ()

/-- Python `j[k]`: raises `KeyError` when the key is absent and
`TypeError` when `j` is not a dict. -/
def pyIndex (j : Json) (k : String) : Except Unit Json :=
  match j with
  | .obj kvs =>
    match lookupKey k kvs with
    | some v => .ok v
    | none => .error ()
  | _ => .error ()

/-- Python iteration over a JSON value: lists yield elements, dicts yield
their keys, strings yield one-character strings, everything else raises
`TypeError`. -/
def pyIter (j : Json) : Except Unit (List Json) :=
  match j with
  | .arr xs => .ok xs
  | .obj kvs => .ok (kvs.map (fun p => .str p.1))
  | .str s => .ok (s.data.map (fun c => .str ⟨[c]⟩))
  | _ => .error ()

/-- Python `j.items()`: raises unless `j` is a dict. -/
def pyItems (j : Json) : Except Unit (List (String × Json)) :=
  match j with
  | .obj kvs => .ok kvs
  | _ => .error ()

/-- Python truthiness of a JSON value. -/
def pyTruthy : Json → Bool
  | .null => false
  | .bool b => b
  | .num n => n != 0
  | .str s => s ≠ ""
  | .arr xs => !xs.isEmpty
  | .obj kvs => !kvs.isEmpty

/-- Total variant of `pyDictGet` for dicts (used for stating expected
values); agrees with `pyDictGet` whenever that one succeeds. -/
def lookupD (j : Json) (k : String) (dflt : Json) : Json :=
  match j with
  | .obj kvs => (lookupKey k kvs).getD dflt
  | _ => dflt

-- # web.py: Response, Retry, HTTPAdapter, Session, SessionManager

/-- An HTTP response: status code and parsed JSON body (`none` models a
body that `response.json()` fails to parse). -/
structure Response where
  status : Nat
  jsonBody : Option Json

/-- urllib3 `Retry` as configured by `create_session` (`web.py` 77-83). -/
structure RetryPolicy where
  total : Nat
  backoff_factor_tenths : Nat
  allowed_methods : List String
  status_forcelist : List Nat
  respect_retry_after_header : Bool

/-- requests `HTTPAdapter`: only its retry configuration matters here. -/
structure HTTPAdapter where
  max_retries : RetryPolicy

/-- The retry policy of a default `HTTPAdapter()` (urllib3 `Retry(0, read=False)`):
no status-based retries at all. -/
def defaultRetryPolicy : RetryPolicy :=
  { total := 0
  , backoff_factor_tenths := 0
  , allowed_methods := ["HEAD", "GET", "PUT", "DELETE", "OPTIONS", "TRACE"]
  , status_forcelist := []
  , respect_retry_after_header := true }

/-- The state of a `requests.Session` relevant to this client: the mounted
adapter (the same one for `http://` and `https://`), whether the
`raise_for_status` response hook is installed, and whether the instance's
`request` attribute has been overwritten by the timeout lambda of
`web.py` line 75 (`some timeout` if so). -/
structure Session where
  adapter : HTTPAdapter
  hook_raise_for_status : Bool
  request_override : Option Nat

/-- A fresh `requests.Session()`: default adapters, no hooks, no override. -/
def Session.fresh : Session :=
  { adapter := ⟨defaultRetryPolicy⟩, hook_raise_for_status := false, request_override := none }

/-- Outcome of issuing a request through a session: the response, or one of
the exceptions requests can raise (`HTTPError` from `raise_for_status`,
`RetryError` when urllib3 exhausts status retries). -/
inductive HttpResult where
  | ok (r : Response)
  | httpError (status : Nat) (body : Option Json)
  | retryError

/-- urllib3 status-retry loop: attempt `i`, with `remaining` retries left.
A retryable response (status in the forcelist, method allowed) consumes a
retry; when retries are exhausted on a retryable response the default
`raise_on_status` raises (`none`). Returns the final response (if any) and
the total number of attempts made. -/
def retryLoop (p : RetryPolicy) (method : String) (t : Nat → Response) :
    Nat → Nat → Option Response × Nat
  | i, 0 =>
    let r := t i
    if p.status_forcelist.contains r.status && p.allowed_methods.contains method then
      (none, i + 1)
    else
      (some r, i + 1)
  | i, n + 1 =>
    let r := t i
    if p.status_forcelist.contains r.status && p.allowed_methods.contains method then
      retryLoop p method t (i + 1) n
    else
      (some r, i + 1)

/-- Issue a request through the session's own machinery (mounted adapter
and hooks): urllib3 retry loop, then the `raise_for_status` hook if
installed (which raises exactly for 4xx/5xx responses). -/
def Session.rawRequest (s : Session) (method : String) (t : Nat → Response) :
    HttpResult × Nat :=
  match retryLoop s.adapter.max_retries method t 0 s.adapter.max_retries.total with
  | (none, n) => (.retryError, n)
  | (some r, n) =>
    if s.hook_raise_for_status && (400 ≤ r.status && r.status < 600) then
      (.httpError r.status r.jsonBody, n)
    else
      (.ok r, n)

/-- Module-level `requests.request(method, url, timeout=..., **kwargs)`:
creates a fresh default session and issues the request through it. The
timeout does not affect which response is returned. -/
def requests_request (method : String) (_timeout : Nat) (t : Nat → Response) :
    HttpResult × Nat :=
  Session.fresh.rawRequest method t

/-- `session.request(...)`: the instance attribute takes precedence over
the class method, so a patched session delegates to `requests_request`
(bypassing its own adapter and hooks); an unpatched one uses its own
machinery. -/
def Session.request (s : Session) (method : String) (t : Nat → Response) :
    HttpResult × Nat :=
  match s.request_override with
  | some timeout => requests_request method timeout t
  | none => s.rawRequest method t

/-- `session.post(...)` delegates to `session.request("POST", ...)`. -/
def Session.post (s : Session) (t : Nat → Response) : HttpResult × Nat :=
  s.request "POST" t

/-- `SessionManager.__init__` configuration (`web.py` 24-46) with its
default values. -/
structure SessionManager where
  timeout : Nat := 5
  retry : Nat := 3
  status_codes : List Nat := [403, 413, 429, 500, 502, 503, 504]
  http_methods : List String := ["GET", "POST", "PUT", "DELETE", "HEAD"]

/-- `SessionManager.create_session` (`web.py` 64-95): builds a session,
replaces its `request` attribute with the timeout lambda, mounts an
adapter carrying the configured `Retry`, and installs the
`raise_for_status` response hook. -/
def SessionManager.create_session (m : SessionManager) : Session :=
  { adapter := ⟨{ total := m.retry
                , backoff_factor_tenths := 1
                , allowed_methods := m.http_methods
                , status_forcelist := m.status_codes
                , respect_retry_after_header := false }⟩
  , hook_raise_for_status := true
  , request_override := some m.timeout }

-- # bls.py: the BLS client

/-- The `BLS` client state set up by `BLS.__init__` (`bls.py` 18-55). -/
structure BLS where
  api_key : String
  session : Session
  start_year : String
  end_year : String

/-- `BLS.__init__(api_key)`: creates the session via
`SessionManager().create_session()` and computes the default year window
from the current year (9 years back without a key, 19 with one). -/
def BLS.init (api_key : String) (current_year : Int) : BLS :=
  { api_key := api_key
  , session := SessionManager.create_session {}
  , start_year := toString (current_year - (if api_key = "" then 9 else 19))
  , end_year := toString current_year }

/-- Two-character zero padding of a FIPS state code (`bls.py` 95-97). -/
def padFips (fips_state : String) : String :=
  if fips_state.length < 2 then "0" ++ fips_state else fips_state

/-- `BLS.generate_ces` (`bls.py` 87-113): the `{'ces': [...]}` response,
modelled as an association list. -/
def BLS.generate_ces (fips_state : String) : List (String × List String) :=
  [("ces",
    [ "SMS" ++ padFips fips_state ++ "000000000000001"
    , "SMS" ++ padFips fips_state ++ "000000500000001"
    , "SMS" ++ padFips fips_state ++ "000000600000001"
    , "SMS" ++ padFips fips_state ++ "000000700000001"
    , "SMS" ++ padFips fips_state ++ "000000800000001"
    , "SMS" ++ padFips fips_state ++ "000001000000001"
    , "SMS" ++ padFips fips_state ++ "000001500000001"
    , "SMS" ++ padFips fips_state ++ "000002000000001"
    , "SMS" ++ padFips fips_state ++ "000001500000001" ])]

/-- The optional flags after the forcing logic of `bls.py` 155-161, plus
whether the downgrade notice was printed. -/
structure ResolvedFlags where
  catalog : Bool
  calculations : Bool
  annual_average : Bool
  aspects : Bool
  warned : Bool

/-- Flag resolution (`bls.py` 155-161): `all_optional_params` turns all
four flags on only when a key is present; an empty key then forces all
four flags off and prints the downgrade notice. -/
def resolveFlags (api_key : String)
    (catalog calculations annual_average aspects all_optional_params : Bool) :
    ResolvedFlags :=
  let fl :=
    if all_optional_params then
      if api_key ≠ "" then (true, true, true, true)
      else (catalog, calculations, annual_average, aspects)
    else (catalog, calculations, annual_average, aspects)
  if api_key = "" then
    { catalog := false, calculations := false, annual_average := false
    , aspects := false, warned := true }
  else
    { catalog := fl.1, calculations := fl.2.1, annual_average := fl.2.2.1
    , aspects := fl.2.2.2, warned := false }

/-- The outgoing request body dict (`bls.py` 163-172). -/
def BLS.request_body (b : BLS) (series_list : List String) (sy ey : String)
    (f : ResolvedFlags) : Json :=
  .obj [ ("seriesid", .arr (series_list.map .str))
       , ("startyear", .str sy)
       , ("endyear", .str ey)
       , ("catalog", .bool f.catalog)
       , ("calculations", .bool f.calculations)
       , ("annualaverage", .bool f.annual_average)
       , ("aspects", .bool f.aspects)
       , ("registrationkey", .str b.api_key) ]

/-- The five conditionally spread catalog entries (`bls.py` 210-218):
each is `series.get("catalog", {}).get(field)`. -/
def catalogPairs (series : Json) : Except Unit (List (String × Json)) := do
  let cat ← pyDictGet series "catalog" (.obj [])
  let a ← pyDictGet cat "series_title" .null
  let b ← pyDictGet cat "seasonality" .null
  let c ← pyDictGet cat "measure_data_type" .null
  let d ← pyDictGet cat "commerce_industry" .null
  let e ← pyDictGet cat "commerce_sector" .null
  pure [ ("series_title", a), ("seasonality", b), ("measure_data_type", c)
       , ("commerce_industry", d), ("commerce_sector", e) ]

/-- One step of the calculations spread (`bls.py` 229-235): for one
`(calc_type, periods)` item, insert `"{calc_type}_{period}" : value` for
every period entry; raises when `periods` is not a dict. -/
def calcFold (acc : List (String × Json)) (pr : String × Json) :
    Except Unit (List (String × Json)) := do
  let periodItems ← pyItems pr.2
  pure (periodItems.foldl
    (fun acc2 pv => dictInsert acc2 (pr.1 ++ "_" ++ pv.1) pv.2) acc)

/-- The conditional catalog spread (`bls.py` 210-218): insert the five
catalog entries when the flag is on, otherwise leave the record as is. -/
def catalogStep (catalog : Bool) (series : Json) (d0 : List (String × Json)) :
    Except Unit (List (String × Json)) :=
  if catalog then do
    let cps ← catalogPairs series
    pure (cps.foldl (fun acc p => dictInsert acc p.1 p.2) d0)
  else pure d0

/-- The conditional aspects spread (`bls.py` 224-228): reads
`series.get("data").get("aspects")` — on the series dict, exactly as the
source does (so it raises when `data` is a list). -/
def aspectsStep (aspects : Bool) (series : Json) (d2 : List (String × Json)) :
    Except Unit (List (String × Json)) :=
  if aspects then do
    let sdata ← pyDictGet series "data" .null
    let asp ← pyDictGet sdata "aspects" .null
    pure (dictInsert d2 "aspects" asp)
  else pure d2

/-- The conditional calculations spread (`bls.py` 229-235): reads
`series.get("data", {}).get("calculations", {})` — again on the series
dict, exactly as the source does. -/
def calcStep (calculations : Bool) (series : Json) (d3 : List (String × Json)) :
    Except Unit (List (String × Json)) :=
  if calculations then do
    let sdata ← pyDictGet series "data" (.obj [])
    let calcs ← pyDictGet sdata "calculations" (.obj [])
    let calcItems ← pyItems calcs
    calcItems.foldlM calcFold d3
  else pure d3

/-- One record of the comprehension (`bls.py` 207-236), built as the dict
literal is: entries inserted in source order, the duplicate `"period"` key
overwriting in place, then the conditional aspects and calculations
spreads. -/
def buildRecord (catalog aspects calculations : Bool) (series dataEntry : Json) :
    Except Unit (List (String × Json)) := do
  let sid ← pyIndex series "seriesID"
  let d0 := dictInsert [] "series_id" sid
  let d1 ← catalogStep catalog series d0
  let y ← pyDictGet dataEntry "year" .null
  let p ← pyDictGet dataEntry "period" .null
  let pn ← pyDictGet dataEntry "periodName" .null
  let v ← pyDictGet dataEntry "value" .null
  let fn ← pyDictGet dataEntry "footnotes" .null
  let d2 := dictInsert (dictInsert (dictInsert (dictInsert (dictInsert d1
              "year" y) "period" p) "period" pn) "value" v)
              "footnotes" (if pyTruthy fn then fn else .str "")
  let d3 ← aspectsStep aspects series d2
  let d4 ← calcStep calculations series d3
  pure d4

/-- The inner loop of the comprehension: one record per data entry of a
series, in order. -/
def buildRecords (c a ca : Bool) (series : Json) :
    List Json → Except Unit (List (List (String × Json)))
  | [] => .ok []
  | d :: ds => do
    let r ← buildRecord c a ca series d
    let rest ← buildRecords c a ca series ds
    pure (r :: rest)

/-- The outer loop of the comprehension: iterate `series.get("data", {})`
for each series in order and concatenate. -/
def flattenAll (c a ca : Bool) :
    List Json → Except Unit (List (List (String × Json)))
  | [] => .ok []
  | s :: ss => do
    let dataJ ← pyDictGet s "data" (.obj [])
    let entries ← pyIter dataJ
    let recs ← buildRecords c a ca s entries
    let rest ← flattenAll c a ca ss
    pure (recs ++ rest)

/-- The whole comprehension over `json_data['Results']['series']`. -/
def flattenSeries (c a ca : Bool) (bls_series : Json) :
    Except Unit (List (List (String × Json))) := do
  let ss ← pyIter bls_series
  flattenAll c a ca ss

/-- The possible Python values `get_series` returns: the raw response
object, the parsed JSON (`REQUEST_NOT_PROCESSED` branch), the record list
(`REQUEST_SUCCEEDED` branch), or a plain string (the initial
`series_data = ''` returned when the status is unrecognized). -/
inductive BLSReturn where
  | response (r : Response)
  | jsonVal (j : Json)
  | records (rs : List (List (String × Json)))
  | str (s : String)

/-- Exceptions `get_series` can let escape: its own `BLSError`, or the
exceptions the session could raise (none of which the blanket `except`
covers, since the `post` call sits outside the `try`). -/
inductive PyException where
  | blsError (msg : String)
  | httpError (status : Nat) (body : Option Json)
  | retryError

/-- Body of the `try` block (`bls.py` 187-240): parse JSON, branch on the
top-level `status`; any raised exception becomes `.error ()`. -/
def tryBody (f : ResolvedFlags) (response : Response) : Except Unit BLSReturn := do
  let json_data ←
    match response.jsonBody with
    | some j => (.ok j : Except Unit Json)
    | none => .error ()
  let bls_response ← pyIndex json_data "status"
  match bls_response with
  | .str s =>
    if s = "REQUEST_NOT_PROCESSED" then do
      let _msg ← pyIndex json_data "message"
      pure (.jsonVal json_data)
    else if s = "REQUEST_SUCCEEDED" then do
      let results ← pyIndex json_data "Results"
      let bls_series ← pyIndex results "series"
      let recs ← flattenSeries f.catalog f.aspects f.calculations bls_series
      pure (.records recs)
    else
      pure (.str "")
  | _ => pure (.str "")

/-- The `try/except` of `bls.py` 187-248: any exception inside the `try`
is swallowed and the raw response object is returned instead. -/
def handleBody (f : ResolvedFlags) (response : Response) : BLSReturn :=
  match tryBody f response with
  | .ok v => v
  | .error _ => .response response

/-- The `BLSError` message raised for over-long series lists (`bls.py` 144). -/
def tooManyMsg (n : Nat) : String :=
  "Maximum of 50 series allowed per query. Attempted to query for "
    ++ toString n ++ " series. Please retry with less series."

/-- `BLS.get_series` (`bls.py` 115-248). The transport maps the posted
JSON body to the response the network produces. Returns the result (or
escaped exception) together with the list of bodies actually posted. -/
def BLS.get_series (b : BLS) (series_list : List String)
    (start_year end_year : Option String)
    (catalog calculations annual_average aspects all_optional_params
      return_raw_response : Bool)
    (transport : Json → Response) :
    Except PyException BLSReturn × List Json :=
  if 50 < series_list.length then
    (.error (.blsError (tooManyMsg series_list.length)), [])
  else
    let sy := start_year.getD b.start_year
    let ey := end_year.getD b.end_year
    let f := resolveFlags b.api_key catalog calculations annual_average aspects
               all_optional_params
    let data := b.request_body series_list sy ey f
    match b.session.post (fun _ => transport data) with
    | (.ok response, _) =>
      if return_raw_response then (.ok (.response response), [data])
      else (.ok (handleBody f response), [data])
    | (.httpError st bd, _) => (.error (.httpError st bd), [data])
    | (.retryError, _) => (.error .retryError, [data])

-- # Helper lemmas for Except do-notation

@[simp] theorem exceptBind_ok {α β ε : Type} (a : α) (f : α → Except ε β) :
    (Except.ok a >>= f : Except ε β) = f a := rfl

@[simp] theorem exceptBind_error {α β ε : Type} (e : ε) (f : α → Except ε β) :
    (Except.error e >>= f : Except ε β) = Except.error e := rfl

@[simp] theorem exceptPure {α ε : Type} (a : α) :
    (pure a : Except ε α) = Except.ok a := rfl

@[simp] theorem exceptMap_ok {α β ε : Type} (a : α) (f : α → β) :
    (f <$> (Except.ok a : Except ε α)) = Except.ok (f a) := rfl

@[simp] theorem exceptMap_error {α β ε : Type} (e : ε) (f : α → β) :
    (f <$> (Except.error e : Except ε α)) = (Except.error e : Except ε β) := rfl

-- # Concrete inputs used by the code-bug evaluations

/-- A response with status 500 and no parseable body. -/
def resp500 : Response := ⟨500, none⟩

/-- A transport answering 503 on the first three attempts and 200 on the
fourth: the scenario of the spec's retry property with `max_retries = 3`. -/
def transport503then200 : Nat → Response :=
  fun i => if i < 3 then ⟨503, none⟩ else ⟨200, none⟩

/-- A `REQUEST_SUCCEEDED` payload with one series and one data entry,
carrying catalog-less data plus `aspects` and `calculations` structures. -/
def aspectsPayload : Json :=
  .obj [ ("status", .str "REQUEST_SUCCEEDED")
       , ("Results", .obj [("series", .arr [
           .obj [ ("seriesID", .str "LNS14000000")
                , ("data", .arr [ .obj
                    [ ("year", .str "2024"), ("period", .str "M01")
                    , ("periodName", .str "January"), ("value", .str "3.7")
                    , ("aspects", .arr [])
                    , ("calculations", .obj [("net_changes", .obj [("1", .str "0.1")])]) ] ]) ] ])]) ]

/-- The HTTP response wrapping `aspectsPayload`. -/
def aspectsResponse : Response := ⟨200, some aspectsPayload⟩

-- # Claim theorems

/-- Claim C1 (code bug): a session built by `SessionManager.create_session`
returns a completed non-2xx response to the caller silently.
`session.post` goes through the overridden `request` attribute, hence
through a fresh default session with no `raise_for_status` hook, so a 500
response comes back as a plain result after one attempt instead of raising
`HttpStatusError`. The second conjunct shows the mounted-but-bypassed
machinery of the very same session would have raised, confirming the
non-raising behaviour is a slip, not a design. -/
theorem claim_c1_bug :
    (SessionManager.create_session {}).post (fun _ => resp500) = (.ok resp500, 1)
    ∧ (SessionManager.create_session {}).rawRequest "POST" (fun _ => ⟨404, none⟩)
        = (.httpError 404 none, 1) :=
  ⟨rfl, rfl⟩

/-- Claim C2 (code bug): no retries happen. With the transport returning
503 on the first three attempts and 200 afterwards, `post` on the session
built by `create_session` makes exactly one attempt and hands back the 503
(first conjunct), and with a transport always returning 500 it likewise
makes one attempt and returns the 500 without error (second conjunct) —
because the overridden `request` attribute routes around the mounted retry
adapter. The third conjunct shows the bypassed adapter machinery of the
same session would have retried to the 200 in exactly 4 attempts as the
claim describes. -/
theorem claim_c2_bug :
    (SessionManager.create_session {}).post transport503then200 = (.ok ⟨503, none⟩, 1)
    ∧ (SessionManager.create_session {}).post (fun _ => resp500) = (.ok resp500, 1)
    ∧ (SessionManager.create_session {}).rawRequest "POST" transport503then200
        = (.ok ⟨200, none⟩, 4) :=
  ⟨rfl, rfl, rfl⟩

/-- Claim C3 (code bug): with a non-empty registration key, requesting
`aspects` (first conjunct) or `calculations` (second conjunct) on a
well-formed `REQUEST_SUCCEEDED` payload does not produce enriched records:
the record builder evaluates `series.get("data").get("aspects")` resp.
`series.get("data", {}).get("calculations", {})` on the series' `data`
*list*, raising `AttributeError`, which the blanket `except` turns into a
raw-response return. The third conjunct shows the `catalog` enrichment
path of the same payload does produce a record with the five catalog
subset fields. -/
theorem claim_c3_bug :
    (BLS.get_series (BLS.init "regkey" 2026) ["LNS14000000"] none none
        false false false true false false (fun _ => aspectsResponse)).fst
      = .ok (.response aspectsResponse)
    ∧ (BLS.get_series (BLS.init "regkey" 2026) ["LNS14000000"] none none
        false true false false false false (fun _ => aspectsResponse)).fst
      = .ok (.response aspectsResponse)
    ∧ (BLS.get_series (BLS.init "regkey" 2026) ["LNS14000000"] none none
        true false false false false false (fun _ => aspectsResponse)).fst
      = .ok (.records [[ ("series_id", .str "LNS14000000")
                       , ("series_title", .null), ("seasonality", .null)
                       , ("measure_data_type", .null), ("commerce_industry", .null)
                       , ("commerce_sector", .null)
                       , ("year", .str "2024"), ("period", .str "January")
                       , ("value", .str "3.7"), ("footnotes", .str "") ]]) :=
  ⟨rfl, rfl, rfl⟩

/-- Claim C8: a query with more than 50 series ids fails with the
`BLSError` reporting the attempted count, and no body is ever posted. -/
theorem claim_c8 (key : String) (y : Int) (series_list : List String)
    (sy ey : Option String) (c ca an asp aop raw : Bool) (t : Json → Response)
    (h : 50 < series_list.length) :
    BLS.get_series (BLS.init key y) series_list sy ey c ca an asp aop raw t
      = (.error (.blsError (tooManyMsg series_list.length)), []) := by
  simp [BLS.get_series, h]

/-- Witness for C8 at a concrete 51-element query. -/
theorem claim_c8_witness :
    BLS.get_series (BLS.init "" 2026) (List.replicate 51 "LNS14000000") none none
        false false false false false false (fun _ => ⟨200, none⟩)
      = (.error (.blsError (tooManyMsg 51)), []) :=
  claim_c8 "" 2026 (List.replicate 51 "LNS14000000") none none
    false false false false false false (fun _ => ⟨200, none⟩) (by decide)

/-- Claim C10: for every FIPS state input, the `ces` list has nine
entries, the Mining/Logging/Construction id
`SMS{fips}000001500000001` sits at both the 7th and the 9th position
(indices 6 and 8), and consequently the list is not duplicate-free. -/
theorem claim_c10 (fips_state : String) :
    ∃ l, BLS.generate_ces fips_state = [("ces", l)]
      ∧ l.length = 9
      ∧ l.get? 6 = some ("SMS" ++ padFips fips_state ++ "000001500000001")
      ∧ l.get? 8 = some ("SMS" ++ padFips fips_state ++ "000001500000001")
      ∧ ¬ l.Nodup := by
  refine ⟨_, rfl, rfl, rfl, rfl, ?_⟩
  intro h
  simp [List.nodup_cons] at h

-- # Reduction of the patched session

/-- The session built by `BLS.__init__` always hands back the transport's
first response after exactly one attempt: the overridden `request`
attribute delegates to a fresh default session with no retry forcelist and
no hooks. -/
theorem init_session_post (key : String) (y : Int) (t : Nat → Response) :
    (BLS.init key y).session.post t = (.ok (t 0), 1) := rfl

/-- Same reduction, stated on `create_session` itself: whatever the
manager's configuration, the patched `post` makes one attempt and returns
it bare. -/
theorem create_session_post (m : SessionManager) (t : Nat → Response) :
    (m.create_session).post t = (.ok (t 0), 1) := rfl

-- # Claims C5, C6, C7

/-- A concrete `REQUEST_NOT_PROCESSED` payload. -/
def notProcessedPayload : Json :=
  .obj [ ("status", .str "REQUEST_NOT_PROCESSED")
       , ("message", .arr [.str "Invalid SeriesID"]) ]

/-- Claim C5: a response whose JSON body carries top-level status
`REQUEST_NOT_PROCESSED` (and the `message` field the code echoes) is
returned as the parsed payload — the `NotProcessed` result carrying the
echoed status and message — and nothing is raised (the result is `.ok`). -/
theorem claim_c5 (key : String) (y : Int) (series_list : List String)
    (sy ey : Option String) (c ca an asp aop : Bool) (r : Response) (payload m : Json)
    (hlen : series_list.length ≤ 50)
    (hjson : r.jsonBody = some payload)
    (hstatus : pyIndex payload "status" = .ok (.str "REQUEST_NOT_PROCESSED"))
    (hmsg : pyIndex payload "message" = .ok m) :
    (BLS.get_series (BLS.init key y) series_list sy ey c ca an asp aop false
        (fun _ => r)).fst = .ok (.jsonVal payload)
    ∧ pyIndex payload "status" = .ok (.str "REQUEST_NOT_PROCESSED")
    ∧ pyIndex payload "message" = .ok m := by
  have hn : ¬ 50 < series_list.length := not_lt.mpr hlen
  refine ⟨?_, hstatus, hmsg⟩
  simp [BLS.get_series, hn, init_session_post, handleBody, tryBody,
        hjson, hstatus, hmsg, exceptBind_ok, exceptPure]

/-- Witness for C5 at a concrete payload. -/
theorem claim_c5_witness :
    (BLS.get_series (BLS.init "" 2026) ["LNS14000000"] none none
        false false false false false false
        (fun _ => ⟨200, some notProcessedPayload⟩)).fst
      = .ok (.jsonVal notProcessedPayload)
    ∧ pyIndex notProcessedPayload "status" = .ok (.str "REQUEST_NOT_PROCESSED")
    ∧ pyIndex notProcessedPayload "message" = .ok (.arr [.str "Invalid SeriesID"]) :=
  claim_c5 "" 2026 ["LNS14000000"] none none false false false false false
    ⟨200, some notProcessedPayload⟩ notProcessedPayload (.arr [.str "Invalid SeriesID"])
    (by decide) rfl rfl rfl

/-- A parseable payload whose `status` is neither recognized value. -/
def weirdPayload : Json := .obj [("status", .str "REQUEST_UNKNOWN")]

/-- The HTTP response wrapping `weirdPayload`. -/
def weirdResponse : Response := ⟨200, some weirdPayload⟩

/-- Counterexample to claim C6 as stated: on a well-formed body whose
`status` is neither `REQUEST_SUCCEEDED` nor `REQUEST_NOT_PROCESSED`,
`get_series` returns the initial `series_data = ''` — the empty string —
and not the raw response object. -/
theorem claim_c6_counterexample :
    (BLS.get_series (BLS.init "" 2026) ["LNS14000000"] none none
        false false false false false false (fun _ => weirdResponse)).fst
      = .ok (.str "")
    ∧ (Except.ok (BLSReturn.str "") : Except PyException BLSReturn)
        ≠ .ok (.response weirdResponse) := by
  refine ⟨rfl, ?_⟩
  intro h
  injection h with h2
  exact BLSReturn.noConfusion h2

/-- Decides whether a `status` value takes one of the two handled
branches of `get_series`. -/
def recognizedStatus : Json → Bool
  | .str s => s = "REQUEST_NOT_PROCESSED" || s = "REQUEST_SUCCEEDED"
  | _ => false

/-- Claim C6 amended: a malformed JSON body (first conjunct) or a body
whose top-level `status` lookup raises (second conjunct) yields the raw
response unchanged without raising; but a parseable body whose `status`
exists and is neither `REQUEST_SUCCEEDED` nor `REQUEST_NOT_PROCESSED`
yields the empty string `''`, not the raw response (third conjunct). -/
theorem claim_c6_amended (key : String) (y : Int) (series_list : List String)
    (sy ey : Option String) (c ca an asp aop : Bool) (r : Response)
    (hlen : series_list.length ≤ 50) :
    (r.jsonBody = none →
      (BLS.get_series (BLS.init key y) series_list sy ey c ca an asp aop false
          (fun _ => r)).fst = .ok (.response r))
    ∧ (∀ payload, r.jsonBody = some payload → pyIndex payload "status" = .error () →
        (BLS.get_series (BLS.init key y) series_list sy ey c ca an asp aop false
            (fun _ => r)).fst = .ok (.response r))
    ∧ (∀ payload s, r.jsonBody = some payload → pyIndex payload "status" = .ok s →
        recognizedStatus s = false →
        (BLS.get_series (BLS.init key y) series_list sy ey c ca an asp aop false
            (fun _ => r)).fst = .ok (.str "")) := by
  have hn : ¬ 50 < series_list.length := not_lt.mpr hlen
  refine ⟨?_, ?_, ?_⟩
  · intro hjson
    simp [BLS.get_series, hn, init_session_post, handleBody, tryBody, hjson]
  · intro payload hjson hstatus
    simp [BLS.get_series, hn, init_session_post, handleBody, tryBody,
          hjson, hstatus, exceptBind_error]
  · intro payload s hjson hstatus hrec
    cases s with
    | str sv =>
      simp only [recognizedStatus, Bool.or_eq_false_iff, decide_eq_false_iff_not] at hrec
      simp [BLS.get_series, hn, init_session_post, handleBody, tryBody,
            hjson, hstatus, exceptBind_ok, exceptPure, hrec.1, hrec.2]
    | null =>
      simp [BLS.get_series, hn, init_session_post, handleBody, tryBody,
            hjson, hstatus, exceptBind_ok, exceptPure]
    | bool b =>
      simp [BLS.get_series, hn, init_session_post, handleBody, tryBody,
            hjson, hstatus, exceptBind_ok, exceptPure]
    | num n =>
      simp [BLS.get_series, hn, init_session_post, handleBody, tryBody,
            hjson, hstatus, exceptBind_ok, exceptPure]
    | arr xs =>
      simp [BLS.get_series, hn, init_session_post, handleBody, tryBody,
            hjson, hstatus, exceptBind_ok, exceptPure]
    | obj kvs =>
      simp [BLS.get_series, hn, init_session_post, handleBody, tryBody,
            hjson, hstatus, exceptBind_ok, exceptPure]

/-- Witness for C6 amended: the malformed-body conjunct applied at a
concrete 500 response with an unparseable body. -/
theorem claim_c6_amended_witness :
    (BLS.get_series (BLS.init "" 2026) ["LNS14000000"] none none
        false false false false false false (fun _ => ⟨500, none⟩)).fst
      = .ok (.response ⟨500, none⟩) :=
  (claim_c6_amended "" 2026 ["LNS14000000"] none none
    false false false false false (⟨500, none⟩ : Response) (by decide)).1 rfl

-- # Claim C7

/-- Claim C7: with an empty registration key, whatever optional flags the
query requests, all four flags resolve to false and the downgrade notice
is printed (first conjunct, a warning rather than an error); the query
posts exactly one body, namely the request body built from the forced-off
flags (second conjunct); that body carries
`catalog:false, calculations:false, annualaverage:false, aspects:false`
(third conjunct); and the call itself completes without raising (fourth
conjunct). -/
theorem claim_c7 (y : Int) (series_list : List String) (sy ey : Option String)
    (c ca an asp aop raw : Bool) (t : Json → Response)
    (hlen : series_list.length ≤ 50) :
    (resolveFlags "" c ca an asp aop
       = { catalog := false, calculations := false, annual_average := false
         , aspects := false, warned := true })
    ∧ (BLS.get_series (BLS.init "" y) series_list sy ey c ca an asp aop raw t).snd
        = [BLS.request_body (BLS.init "" y) series_list
            (sy.getD (BLS.init "" y).start_year) (ey.getD (BLS.init "" y).end_year)
            (resolveFlags "" c ca an asp aop)]
    ∧ (∀ body ∈ (BLS.get_series (BLS.init "" y) series_list sy ey c ca an asp aop raw t).snd,
        pyIndex body "catalog" = .ok (.bool false)
        ∧ pyIndex body "calculations" = .ok (.bool false)
        ∧ pyIndex body "annualaverage" = .ok (.bool false)
        ∧ pyIndex body "aspects" = .ok (.bool false))
    ∧ (∃ v, (BLS.get_series (BLS.init "" y) series_list sy ey c ca an asp aop raw t).fst
          = Except.ok v) := by
  have hn : ¬ 50 < series_list.length := not_lt.mpr hlen
  refine ⟨rfl, ?_, ?_, ?_⟩
  · cases raw <;>
      simp [BLS.get_series, BLS.init, hn, create_session_post]
  · intro body hb
    cases raw <;>
      simp [BLS.get_series, BLS.init, hn, create_session_post] at hb <;>
      subst hb <;>
      exact ⟨rfl, rfl, rfl, rfl⟩
  · cases raw <;>
    · simp [BLS.get_series, BLS.init, hn, create_session_post]

/-- Witness for C7: a concrete query requesting `include_catalog=true`
with the empty key. -/
theorem claim_c7_witness :
    (resolveFlags "" true false false false false
       = { catalog := false, calculations := false, annual_average := false
         , aspects := false, warned := true })
    ∧ (BLS.get_series (BLS.init "" 2026) ["LNS14000000"] none none
          true false false false false false (fun _ => ⟨200, none⟩)).snd
        = [BLS.request_body (BLS.init "" 2026) ["LNS14000000"]
            ((none : Option String).getD (BLS.init "" 2026).start_year)
            ((none : Option String).getD (BLS.init "" 2026).end_year)
            (resolveFlags "" true false false false false)]
    ∧ (∀ body ∈ (BLS.get_series (BLS.init "" 2026) ["LNS14000000"] none none
          true false false false false false (fun _ => ⟨200, none⟩)).snd,
        pyIndex body "catalog" = .ok (.bool false)
        ∧ pyIndex body "calculations" = .ok (.bool false)
        ∧ pyIndex body "annualaverage" = .ok (.bool false)
        ∧ pyIndex body "aspects" = .ok (.bool false))
    ∧ (∃ v, (BLS.get_series (BLS.init "" 2026) ["LNS14000000"] none none
          true false false false false false (fun _ => ⟨200, none⟩)).fst
          = Except.ok v) :=
  claim_c7 2026 ["LNS14000000"] none none true false false false false false
    (fun _ => ⟨200, none⟩) (by decide)

-- # Claim C4: shape of the flattened records

/-- Inversion of a successful `Except` bind. -/
theorem exceptBind_eq_ok {α β ε : Type} (x : Except ε α) (f : α → Except ε β) (b : β) :
    (x >>= f) = Except.ok b ↔ ∃ a, x = Except.ok a ∧ f a = Except.ok b := by
  cases x <;> simp

/-- Whether a JSON value is a dict. -/
def isObj : Json → Bool
  | .obj _ => true
  | _ => false

/-- The data entries a series contributes when its `data` field is a list
(the shape of real payloads). -/
def entriesOf (s : Json) : List Json :=
  match s with
  | .obj kvs =>
    match (lookupKey "data" kvs).getD (.obj []) with
    | .arr ds => ds
    | _ => []
  | _ => []

/-- A series dict of the wire shape: it has a `seriesID`, and its `data`
defaults to a list of dicts. -/
def seriesShapeOk (s : Json) : Bool :=
  match s with
  | .obj kvs =>
    (lookupKey "seriesID" kvs).isSome &&
    (match (lookupKey "data" kvs).getD (.obj []) with
     | .arr ds => ds.all isObj
     | _ => false)
  | _ => false

/-- The record the builder produces for one (series, data entry) pair when
all enrichment flags are off: insertion order `series_id`, `year`,
`period` (the `periodName`, since the duplicate dict key overwrites in
place), `value`, `footnotes`. -/
def recordNoFlags (s d : Json) : List (String × Json) :=
  [ ("series_id", lookupD s "seriesID" .null)
  , ("year", lookupD d "year" .null)
  , ("period", lookupD d "periodName" .null)
  , ("value", lookupD d "value" .null)
  , ("footnotes",
      if pyTruthy (lookupD d "footnotes" .null) then lookupD d "footnotes" .null
      else .str "") ]

/-- The full flattening: one record per (series, data entry) pair, series
order outside, period order inside. -/
def expectedRecords (ss : List Json) : List (List (String × Json)) :=
  (ss.map (fun s => (entriesOf s).map (fun d => recordNoFlags s d))).flatten

/-- With all flags off, the record builder succeeds on dict-shaped inputs
and produces exactly `recordNoFlags`. -/
theorem buildRecord_noflags (kvs dk : List (String × Json)) (sid : Json)
    (hsid : lookupKey "seriesID" kvs = some sid) :
    buildRecord false false false (.obj kvs) (.obj dk)
      = .ok (recordNoFlags (.obj kvs) (.obj dk)) := by
  simp [buildRecord, catalogStep, aspectsStep, calcStep, pyIndex, pyDictGet, hsid,
        recordNoFlags, lookupD, dictInsert]

/-- Records of one series: one per data entry, in order. -/
theorem buildRecords_noflags (kvs : List (String × Json)) (sid : Json)
    (hsid : lookupKey "seriesID" kvs = some sid) (ds : List Json)
    (hds : ds.all isObj = true) :
    buildRecords false false false (.obj kvs) ds
      = .ok (ds.map (fun d => recordNoFlags (.obj kvs) d)) := by
  induction ds with
  | nil => rfl
  | cons d ds ih =>
    simp only [List.all_cons, Bool.and_eq_true] at hds
    obtain ⟨hd, hrest⟩ := hds
    cases d <;> simp [isObj] at hd
    case obj dk =>
      simp [buildRecords, buildRecord_noflags kvs dk sid hsid, ih hrest]

/-- The whole comprehension with all flags off: exactly the
series-then-period flattening. -/
theorem flattenAll_noflags (ss : List Json) (hss : ∀ s ∈ ss, seriesShapeOk s = true) :
    flattenAll false false false ss = .ok (expectedRecords ss) := by
  induction ss with
  | nil => rfl
  | cons s ss ih =>
    have hs := hss s (List.mem_cons_self s ss)
    have hrest : ∀ x ∈ ss, seriesShapeOk x = true :=
      fun x hx => hss x (List.mem_cons_of_mem s hx)
    cases s
    case obj kvs =>
      simp only [seriesShapeOk, Bool.and_eq_true] at hs
      obtain ⟨hsid', hdata⟩ := hs
      obtain ⟨sid, hsid⟩ := Option.isSome_iff_exists.mp hsid'
      cases hdv : (lookupKey "data" kvs).getD (.obj [])
      case arr ds =>
        rw [hdv] at hdata
        simp [flattenAll, pyDictGet, hdv, pyIter,
              buildRecords_noflags kvs sid hsid ds hdata, ih hrest,
              expectedRecords, entriesOf]
      all_goals rw [hdv] at hdata; simp at hdata
    all_goals simp [seriesShapeOk] at hs

/-- The flag resolution of a query with all enrichment flags off leaves
`catalog`, `calculations` and `aspects` off whatever the key. -/
theorem resolveFlags_off (key : String) (an : Bool) :
    (resolveFlags key false false an false false).catalog = false
    ∧ (resolveFlags key false false an false false).calculations = false
    ∧ (resolveFlags key false false an false false).aspects = false := by
  by_cases h : key = "" <;> simp [resolveFlags, h]

/-- Claim C4: on a `REQUEST_SUCCEEDED` payload of the wire shape, a query
with the enrichment flags unset returns exactly one record per
(series, data entry) pair, in series-then-period nesting order: the result
is the flattening `expectedRecords ss`, whose length is the sum over the
series of their data lengths. -/
theorem claim_c4 (key : String) (y : Int) (series_list : List String)
    (sy ey : Option String) (an : Bool) (r : Response) (payload resv : Json)
    (ss : List Json)
    (hlen : series_list.length ≤ 50)
    (hjson : r.jsonBody = some payload)
    (hstatus : pyIndex payload "status" = .ok (.str "REQUEST_SUCCEEDED"))
    (hres : pyIndex payload "Results" = .ok resv)
    (hser : pyIndex resv "series" = .ok (.arr ss))
    (hss : ∀ s ∈ ss, seriesShapeOk s = true) :
    (BLS.get_series (BLS.init key y) series_list sy ey false false an false false false
        (fun _ => r)).fst = .ok (.records (expectedRecords ss))
    ∧ (expectedRecords ss).length = (ss.map (fun s => (entriesOf s).length)).sum := by
  have hn : ¬ 50 < series_list.length := not_lt.mpr hlen
  obtain ⟨hc, hca, hasp⟩ := resolveFlags_off key an
  constructor
  · simp [BLS.get_series, BLS.init, hn, create_session_post, handleBody, tryBody,
          hjson, hstatus, hres, hser, flattenSeries, pyIter, hc, hca, hasp,
          flattenAll_noflags ss hss]
  · simp [expectedRecords, List.length_flatten, List.map_map, Function.comp_def,
          List.length_map]

/-- A data entry for January. -/
def entryJan : Json :=
  .obj [ ("year", .str "2024"), ("period", .str "M01"), ("periodName", .str "January")
       , ("value", .str "3.7"), ("footnotes", .str "") ]

/-- A data entry for February. -/
def entryFeb : Json :=
  .obj [ ("year", .str "2024"), ("period", .str "M02"), ("periodName", .str "February")
       , ("value", .str "3.9") ]

/-- One series with two period entries. -/
def twoEntrySeries : Json :=
  .obj [ ("seriesID", .str "LNS14000000"), ("data", .arr [entryJan, entryFeb]) ]

/-- A `REQUEST_SUCCEEDED` payload with one series of two period entries. -/
def twoEntryPayload : Json :=
  .obj [ ("status", .str "REQUEST_SUCCEEDED")
       , ("Results", .obj [("series", .arr [twoEntrySeries])]) ]

/-- Witness for C4: the spec's scenario of one series with two period
entries yields exactly its two records. -/
theorem claim_c4_witness :
    (BLS.get_series (BLS.init "" 2026) ["LNS14000000"] none none false false false false
        false false (fun _ => ⟨200, some twoEntryPayload⟩)).fst
      = .ok (.records (expectedRecords [twoEntrySeries]))
    ∧ (expectedRecords [twoEntrySeries]).length
        = ([twoEntrySeries].map (fun s => (entriesOf s).length)).sum :=
  claim_c4 "" 2026 ["LNS14000000"] none none false ⟨200, some twoEntryPayload⟩
    twoEntryPayload (.obj [("series", .arr [twoEntrySeries])]) [twoEntrySeries]
    (by decide) rfl rfl rfl rfl (by decide)

-- # Claim C9: the footnotes field of every produced record

/-- Inserting a key makes it present with the inserted value. -/
theorem lookupKey_dictInsert_self (k : String) (v : Json) (d : List (String × Json)) :
    lookupKey k (dictInsert d k v) = some v := by
  induction d with
  | nil => simp [dictInsert, lookupKey]
  | cons p rest ih =>
    obtain ⟨a, b⟩ := p
    by_cases h : a = k
    · simp [dictInsert, lookupKey, h]
    · simp [dictInsert, lookupKey, h, ih]

/-- Inserting a different key leaves a lookup unchanged. -/
theorem lookupKey_dictInsert_ne (k k' : String) (v : Json) (d : List (String × Json))
    (h : k' ≠ k) :
    lookupKey k (dictInsert d k' v) = lookupKey k d := by
  induction d with
  | nil => simp [dictInsert, lookupKey, h]
  | cons p rest ih =>
    obtain ⟨a, b⟩ := p
    by_cases ha : a = k'
    · subst ha
      simp [dictInsert, lookupKey, h]
    · simp [dictInsert, lookupKey, ha, ih]

/-- A calculations key always contains an underscore, so it can never be
the `footnotes` key. -/
theorem calc_key_ne_footnotes (c p : String) : c ++ "_" ++ p ≠ "footnotes" := by
  intro h
  have hm : '_' ∈ (c ++ "_" ++ p).data := by
    simp [String.data_append]
  rw [h] at hm
  exact absurd hm (by decide)

/-- The inner calculations fold never touches a key without an
underscore between two parts. -/
theorem lookupKey_foldl_dictInsert (key pfx : String)
    (L : List (String × Json)) (acc : List (String × Json))
    (hk : ∀ q ∈ L, pfx ++ "_" ++ q.1 ≠ key) :
    lookupKey key (L.foldl (fun acc2 pv => dictInsert acc2 (pfx ++ "_" ++ pv.1) pv.2) acc)
      = lookupKey key acc := by
  induction L generalizing acc with
  | nil => rfl
  | cons q L ih =>
    rw [List.foldl_cons, ih _ (fun x hx => hk x (List.mem_cons_of_mem q hx)),
        lookupKey_dictInsert_ne _ _ _ _ (hk q (List.mem_cons_self q L))]

/-- The whole calculations spread preserves lookups of underscore-free
keys such as `footnotes`. -/
theorem lookupKey_calc_foldlM (key : String) (hkey : ∀ c p : String, c ++ "_" ++ p ≠ key)
    (items : List (String × Json)) (d0 d1 : List (String × Json))
    (h : items.foldlM calcFold d0 = .ok d1) :
    lookupKey key d1 = lookupKey key d0 := by
  induction items generalizing d0 with
  | nil =>
    simp only [List.foldlM_nil, exceptPure, Except.ok.injEq] at h
    rw [h]
  | cons pr items ih =>
    rw [List.foldlM_cons] at h
    rw [exceptBind_eq_ok] at h
    obtain ⟨acc, hacc, hrest⟩ := h
    unfold calcFold at hacc
    rw [exceptBind_eq_ok] at hacc
    obtain ⟨pis, _hpis, hpure⟩ := hacc
    simp only [exceptPure, Except.ok.injEq] at hpure
    subst hpure
    rw [ih _ hrest]
    exact lookupKey_foldl_dictInsert key pr.1 pis d0 (fun q _ => hkey pr.1 q.1)

/-- The stored footnotes value is the empty string whenever it is falsy. -/
theorem footnotesVal_ok (fnv : Json) :
    pyTruthy (if pyTruthy fnv then fnv else Json.str "") = false →
      (if pyTruthy fnv then fnv else Json.str "") = Json.str "" := by
  by_cases hf : pyTruthy fnv <;> simp [hf]

/-- The aspects step never touches the `footnotes` key. -/
theorem aspectsStep_lookup_footnotes (a : Bool) (s : Json) (acc d3 : List (String × Json))
    (h : aspectsStep a s acc = .ok d3) :
    lookupKey "footnotes" d3 = lookupKey "footnotes" acc := by
  cases a with
  | false =>
    simp only [aspectsStep, Bool.false_eq_true, if_false, exceptPure, Except.ok.injEq] at h
    rw [← h]
  | true =>
    simp only [aspectsStep, if_true, exceptBind_eq_ok, exceptPure, Except.ok.injEq] at h
    obtain ⟨sdata, _hsd, asp, _hasp, h3⟩ := h
    rw [← h3, lookupKey_dictInsert_ne _ _ _ _ (by decide)]

/-- The calculations step never touches the `footnotes` key. -/
theorem calcStep_lookup_footnotes (ca : Bool) (s : Json) (acc d4 : List (String × Json))
    (h : calcStep ca s acc = .ok d4) :
    lookupKey "footnotes" d4 = lookupKey "footnotes" acc := by
  cases ca with
  | false =>
    simp only [calcStep, Bool.false_eq_true, if_false, exceptPure, Except.ok.injEq] at h
    rw [← h]
  | true =>
    simp only [calcStep, if_true, exceptBind_eq_ok, exceptPure, Except.ok.injEq] at h
    obtain ⟨sdata, _hsd, calcs, _hcalcs, calcItems, _hitems, hfold⟩ := h
    exact lookupKey_calc_foldlM "footnotes" calc_key_ne_footnotes calcItems acc d4 hfold

/-- Every record the builder produces carries a `footnotes` entry, and the
entry is exactly the empty string whenever it is falsy (in particular when
the payload entry had no footnotes). -/
theorem buildRecord_footnotes (c a ca : Bool) (s d : Json) (rec : List (String × Json))
    (h : buildRecord c a ca s d = .ok rec) :
    ∃ v, lookupKey "footnotes" rec = some v ∧ (pyTruthy v = false → v = .str "") := by
  unfold buildRecord at h
  simp only [exceptBind_eq_ok, exceptPure, Except.ok.injEq] at h
  obtain ⟨sid, hsid, d1, hd1, yv, hy, pv, hp, pnv, hpn, vv, hv, fnv, hfn, d3, hd3,
          d4, hd4, hrec⟩ := h
  subst hrec
  refine ⟨if pyTruthy fnv then fnv else .str "", ?_, footnotesVal_ok fnv⟩
  rw [calcStep_lookup_footnotes ca s d3 d4 hd4,
      aspectsStep_lookup_footnotes a s _ d3 hd3]
  exact lookupKey_dictInsert_self _ _ _

/-- Every record in the output of `buildRecords` comes from `buildRecord`. -/
theorem buildRecords_mem (c a ca : Bool) (s : Json) (ds : List Json)
    (rs : List (List (String × Json))) (h : buildRecords c a ca s ds = .ok rs) :
    ∀ rec ∈ rs, ∃ d, buildRecord c a ca s d = .ok rec := by
  induction ds generalizing rs with
  | nil =>
    simp only [buildRecords, Except.ok.injEq] at h
    subst h
    intro rec hrec
    simp at hrec
  | cons d ds ih =>
    simp only [buildRecords, exceptBind_eq_ok, exceptPure, Except.ok.injEq] at h
    obtain ⟨r, hr, rest, hrest, h⟩ := h
    subst h
    intro rec hrec
    rcases List.mem_cons.mp hrec with h1 | h2
    · subst h1
      exact ⟨d, hr⟩
    · exact ih rest hrest rec h2

/-- Every record in the output of `flattenAll` comes from `buildRecord`. -/
theorem flattenAll_mem (c a ca : Bool) (ss : List Json)
    (rs : List (List (String × Json))) (h : flattenAll c a ca ss = .ok rs) :
    ∀ rec ∈ rs, ∃ s d, buildRecord c a ca s d = .ok rec := by
  induction ss generalizing rs with
  | nil =>
    simp only [flattenAll, Except.ok.injEq] at h
    subst h
    intro rec hrec
    simp at hrec
  | cons s ss ih =>
    simp only [flattenAll, exceptBind_eq_ok, exceptPure, Except.ok.injEq] at h
    obtain ⟨dataJ, _hd, entries, _he, recs, hrecs, rest, hrest, h⟩ := h
    subst h
    intro rec hrec
    rcases List.mem_append.mp hrec with h1 | h2
    · obtain ⟨d, hd⟩ := buildRecords_mem c a ca s entries recs hrecs rec h1
      exact ⟨s, d, hd⟩
    · exact ih rest hrest rec h2

/-- If the try body produced a record list, it came out of the
flattening comprehension. -/
theorem tryBody_records (f : ResolvedFlags) (r : Response)
    (rs : List (List (String × Json))) (h : tryBody f r = .ok (.records rs)) :
    ∃ bs, flattenAll f.catalog f.aspects f.calculations bs = .ok rs := by
  unfold tryBody at h
  cases hb : r.jsonBody with
  | none =>
    rw [hb] at h
    simp at h
  | some j =>
    rw [hb] at h
    simp only [exceptBind_ok, exceptBind_eq_ok] at h
    obtain ⟨st, hst, h⟩ := h
    cases st
    case str sv =>
      dsimp only at h
      by_cases h1 : sv = "REQUEST_NOT_PROCESSED"
      · rw [if_pos h1] at h
        cases hm : pyIndex j "message" with
        | ok m =>
          rw [hm] at h
          simp at h
        | error e =>
          rw [hm] at h
          simp at h
      · rw [if_neg h1] at h
        by_cases h2 : sv = "REQUEST_SUCCEEDED"
        · rw [if_pos h2] at h
          cases hres : pyIndex j "Results" with
          | error e =>
            rw [hres] at h
            simp at h
          | ok resv =>
            rw [hres] at h
            simp only [exceptBind_ok] at h
            cases hser : pyIndex resv "series" with
            | error e =>
              rw [hser] at h
              simp at h
            | ok serv =>
              rw [hser] at h
              simp only [exceptBind_ok] at h
              unfold flattenSeries at h
              cases hit : pyIter serv with
              | error e =>
                rw [hit] at h
                simp at h
              | ok bs =>
                rw [hit] at h
                simp only [exceptBind_ok] at h
                cases hfl : flattenAll f.catalog f.aspects f.calculations bs with
                | error e =>
                  rw [hfl] at h
                  simp at h
                | ok recs =>
                  rw [hfl] at h
                  simp at h
                  subst h
                  exact ⟨bs, hfl⟩
        · rw [if_neg h2] at h
          simp at h
    all_goals simp at h

/-- Claim C9 (amended form): every record produced by a completed
`get_series` call carries a `footnotes` entry, and that entry is exactly
the empty string whenever it is falsy — in particular a payload entry
without footnotes yields `""`. (Truthy payload footnotes are stored
unchanged and need not be strings.) -/
theorem claim_c9_amended (key : String) (y : Int) (series_list : List String)
    (sy ey : Option String) (c ca an asp aop : Bool) (t : Json → Response)
    (rs : List (List (String × Json)))
    (h : (BLS.get_series (BLS.init key y) series_list sy ey c ca an asp aop false t).fst
          = .ok (.records rs)) :
    ∀ rec ∈ rs, ∃ v, lookupKey "footnotes" rec = some v
        ∧ (pyTruthy v = false → v = .str "") := by
  by_cases hlen : 50 < series_list.length
  · simp [BLS.get_series, hlen] at h
  · simp only [BLS.get_series, BLS.init, hlen, if_false, reduceIte,
      create_session_post, Bool.false_eq_true, Except.ok.injEq] at h
    unfold handleBody at h
    set f := resolveFlags key c ca an asp aop with hf
    cases htb : tryBody f _ with
    | ok v =>
      rw [htb] at h
      subst h
      obtain ⟨bs, hfa⟩ := tryBody_records f _ rs htb
      intro rec hrec
      obtain ⟨s, d, hbd⟩ := flattenAll_mem f.catalog f.aspects f.calculations bs rs hfa rec hrec
      exact buildRecord_footnotes f.catalog f.aspects f.calculations s d rec hbd
    | error e =>
      rw [htb] at h
      exact absurd h (by intro hh; exact BLSReturn.noConfusion hh)

/-- A `REQUEST_SUCCEEDED` payload whose single data entry carries truthy
footnotes of the wire shape: a list of footnote dicts. -/
def footnotesPayload : Json :=
  .obj [ ("status", .str "REQUEST_SUCCEEDED")
       , ("Results", .obj [("series", .arr [ .obj
           [ ("seriesID", .str "S1")
           , ("data", .arr [ .obj
               [ ("year", .str "2024"), ("period", .str "M01")
               , ("periodName", .str "January"), ("value", .str "3.7")
               , ("footnotes", .arr [.obj [("code", .str "P")
                                          , ("text", .str "preliminary")]]) ] ]) ] ])]) ]

/-- Counterexample to claim C9 as stated: a truthy payload `footnotes`
value is stored in the record unchanged, so the record's footnotes field
is the original JSON array — not a string. -/
theorem claim_c9_counterexample :
    (BLS.get_series (BLS.init "" 2026) ["S1"] none none false false false false false false
        (fun _ => ⟨200, some footnotesPayload⟩)).fst
      = .ok (.records [[ ("series_id", Json.str "S1"), ("year", Json.str "2024")
                       , ("period", Json.str "January"), ("value", Json.str "3.7")
                       , ("footnotes", Json.arr [.obj [("code", .str "P")
                                                      , ("text", .str "preliminary")]]) ]])
    ∧ ∀ s : String,
        Json.arr [.obj [("code", .str "P"), ("text", .str "preliminary")]] ≠ Json.str s :=
  ⟨rfl, fun _ h => Json.noConfusion h⟩

/-- Witness for the amended C9, read off the `footnotesPayload` run. -/
theorem claim_c9_amended_witness :
    ∃ v, lookupKey "footnotes"
        [ ("series_id", Json.str "S1"), ("year", Json.str "2024")
        , ("period", Json.str "January"), ("value", Json.str "3.7")
        , ("footnotes", Json.arr [.obj [("code", .str "P"), ("text", .str "preliminary")]]) ]
      = some v ∧ (pyTruthy v = false → v = Json.str "") :=
  claim_c9_amended "" 2026 ["S1"] none none false false false false false
    (fun _ => ⟨200, some footnotesPayload⟩)
    [[ ("series_id", Json.str "S1"), ("year", Json.str "2024")
     , ("period", Json.str "January"), ("value", Json.str "3.7")
     , ("footnotes", Json.arr [.obj [("code", .str "P"), ("text", .str "preliminary")]]) ]]
    rfl
    [ ("series_id", Json.str "S1"), ("year", Json.str "2024")
    , ("period", Json.str "January"), ("value", Json.str "3.7")
    , ("footnotes", Json.arr [.obj [("code", .str "P"), ("text", .str "preliminary")]]) ]
    (by simp)
